import Mathlib

/-!
Shallow embedding of the order-validation and OCO price-derivation logic of
the `uday-binance-bot` repository (files `src/utils/validators.py`,
`src/market_order.py`, `src/limit_order.py`, `src/advanced/oco.py`).

Python floats are modelled as rationals, Python's built-in `round`
(round-half-to-even) as `pyRound`, and the Binance client as an explicit
environment `Env` from which every exchange call reads.  Each pipeline
returns its result together with the ordered list of exchange calls it
made, so temporal claims about call ordering can be stated.
-/

namespace BinanceBot

/-- Python's `str.upper()` on the strings the pipelines normalize. -/
def strUpper (s : String) : String := String.mk (s.data.map Char.toUpper)

/-- Python's built-in `round` to an integer: round half to even. -/
def pyRound (q : ℚ) : ℤ :=
  if q - ⌊q⌋ < 1/2 then ⌊q⌋
  else if 1/2 < q - ⌊q⌋ then ⌊q⌋ + 1
  else if ⌊q⌋ % 2 = 0 then ⌊q⌋ else ⌊q⌋ + 1

/-- Python's `round(x, 6)`: round to six decimal places, half to even. -/
def round6 (x : ℚ) : ℚ := (pyRound (x * 1000000) : ℚ) / 1000000

theorem pyRound_ge (q : ℚ) : q - 1/2 ≤ (pyRound q : ℚ) := by
  have hfl : (⌊q⌋ : ℚ) ≤ q := Int.floor_le q
  have hfu : q < (⌊q⌋ : ℚ) + 1 := Int.lt_floor_add_one q
  unfold pyRound
  split_ifs <;> push_cast <;> linarith

theorem pyRound_le (q : ℚ) : (pyRound q : ℚ) ≤ q + 1/2 := by
  have hfl : (⌊q⌋ : ℚ) ≤ q := Int.floor_le q
  have hfu : q < (⌊q⌋ : ℚ) + 1 := Int.lt_floor_add_one q
  unfold pyRound
  split_ifs <;> push_cast <;> linarith

/-- The exchange calls the bot can make through the Binance client. -/
inductive Call where
  | futuresExchangeInfo
  | futuresSymbolTicker (symbol : String)
  | futuresAccountBalance
  | futuresPing
  | futuresChangeLeverage (symbol : String) (leverage : ℚ)
  | futuresCreateOrder (symbol sideArg otype : String) (quantity : ℚ)
      (price : Option ℚ) (tif : Option String) (stopPrice : Option ℤ)
  | futuresCancelOrder (symbol : String)
  deriving DecidableEq, Repr

def Call.isChangeLeverage : Call → Bool
  | .futuresChangeLeverage _ _ => true
  | _ => false

def Call.isCreateOrder : Call → Bool
  | .futuresCreateOrder _ _ _ _ _ _ _ => true
  | _ => false

def Call.isCancelOrder : Call → Bool
  | .futuresCancelOrder _ => true
  | _ => false

/-- The distinct rejection reasons raised by the validators and pipelines
(each tag corresponds to one `raise`/failure site in the Python source). -/
inductive VError where
  | symbolUnknown          -- validate_symbol: symbol not on Binance Futures
  | badSide                -- validate_side: side not BUY/SELL
  | badSymbolString        -- validate_order_params: empty symbol
  | badQuantity            -- quantity <= 0
  | badPrice               -- price <= 0
  | exchangeUnreachable    -- validate_market_status failed
  | badLeverageType        -- validate_leverage: not an integer
  | badLeverageRange       -- validate_leverage: outside [1, 125]
  | noUsdtAsset            -- no USDT entry in futures_account_balance
  | insufficientMargin     -- validate_margin: balance below minimum
  | changeLeverageFailed   -- futures_change_leverage raised
  | invalidAdjustedQuantity -- adjusted quantity falsy or <= 0
  | createOrderFailed      -- futures_create_order raised
  | slPlacementInvalid     -- OCO: stop loss on the wrong side of price
  | tpPlacementInvalid     -- OCO: take profit on the wrong side of price
  deriving DecidableEq, Repr

/-- The state of the exchange as seen through the client: the data every
call returns, plus flags saying whether the mutating calls succeed. -/
structure Env where
  symbols : List String          -- futures_exchange_info symbol list
  price : ℚ                      -- futures_symbol_ticker price
  balances : List (String × ℚ)   -- futures_account_balance (asset, balance)
  pingOk : Bool                  -- futures_ping reachable
  changeLeverageOk : Bool        -- futures_change_leverage succeeds
  createOrderOk : Bool           -- futures_create_order succeeds (market/limit)
  stopMarketOk : Bool            -- OCO STOP_MARKET create succeeds
  takeProfitOk : Bool            -- OCO TAKE_PROFIT_MARKET create succeeds
  orderId : ℕ                    -- order id returned on success
  deriving DecidableEq, Repr

/-- `Validator.validate_leverage` (validators.py lines 179-187): leverage
must be an integer (here: a rational with denominator 1) in [1, 125]. -/
def validate_leverage (leverage : ℚ) : Except VError ℚ :=
  if leverage.den ≠ 1 then .error .badLeverageType
  else if leverage < 1 ∨ 125 < leverage then .error .badLeverageRange
  else .ok leverage

/-- `Validator.validate_margin` (validators.py lines 189-202) applied to
the balance list fetched from the client: find the first USDT entry
(`next` raises if there is none) and require it to meet the minimum. -/
def validate_margin (balances : List (String × ℚ)) (min_usd_required : ℚ) :
    Except VError ℚ :=
  match List.lookup "USDT" balances with
  | none => .error .noUsdtAsset
  | some bal =>
    if bal < min_usd_required then .error .insufficientMargin else .ok bal

/-- `Validator.validate_quantity_bounds` (validators.py lines 147-177)
with the price and USDT balance the client would return passed in:
clamp the quantity to [round(min_usd/price, 6),
round(balance*leverage*0.8/price, 6)], minimum branch first. -/
def validate_quantity_bounds (quantity price bal leverage min_usd : ℚ) : ℚ :=
  let min_qty := round6 (min_usd / price)
  let max_qty := round6 (bal * leverage * (8/10) / price)
  if quantity < min_qty then min_qty
  else if max_qty < quantity then max_qty
  else quantity

/-- The valid time-in-force values of `Validator.validate_time_in_force`
(validators.py lines 111-117).  Note the source function only LOGS when
`tif` is not in this list; it raises nothing, so the check has no effect
on the limit-order pipeline's behaviour. -/
def valid_tif : List String := ["GTC", "IOC", "FOK"]

/-- `MarketOrder.place_order` (market_order.py lines 21-73) before the
outer `except` turns every raised error into `None`.  The second component
is the ordered list of exchange calls the attempt made.  The validators run
in the source order: validate_symbol (futures_exchange_info),
validate_side, validate_order_params, validate_market_status (futures_ping),
validate_leverage, validate_margin (futures_account_balance); then
futures_change_leverage, validate_quantity_bounds (futures_symbol_ticker +
futures_account_balance), the falsy/≤0 quantity guard, and
futures_create_order with type "Market". -/
def marketPlaceOrder (env : Env) (symbol side : String) (quantity leverage : ℚ) :
    Except VError ℕ × List Call :=
  let sym := strUpper symbol
  let sd := strUpper side
  let t0 : List Call := [.futuresExchangeInfo]
  if sym ∉ env.symbols then (.error .symbolUnknown, t0)
  else if sd ∉ ["BUY", "SELL"] then (.error .badSide, t0)
  else if sym = "" then (.error .badSymbolString, t0)
  else if quantity ≤ 0 then (.error .badQuantity, t0)
  else
    let t1 := t0 ++ [.futuresPing]
    if env.pingOk = false then (.error .exchangeUnreachable, t1)
    else
      match validate_leverage leverage with
      | .error e => (.error e, t1)
      | .ok _ =>
        let t2 := t1 ++ [.futuresAccountBalance]
        match validate_margin env.balances 10 with
        | .error e => (.error e, t2)
        | .ok bal =>
          let t3 := t2 ++ [.futuresChangeLeverage sym leverage]
          if env.changeLeverageOk = false then (.error .changeLeverageFailed, t3)
          else
            let t4 := t3 ++ [.futuresSymbolTicker sym, .futuresAccountBalance]
            let q2 := validate_quantity_bounds quantity env.price bal leverage 100
            if q2 ≤ 0 then (.error .invalidAdjustedQuantity, t4)
            else
              let t5 := t4 ++ [.futuresCreateOrder sym sd "Market" q2 none none none]
              if env.createOrderOk then (.ok env.orderId, t5)
              else (.error .createOrderFailed, t5)

/-- `MarketOrder.place_order` as seen by the caller: the outer
`try/except` maps every error to `None`. -/
def place_order (env : Env) (symbol side : String) (quantity leverage : ℚ) :
    Option ℕ × List Call :=
  let r := marketPlaceOrder env symbol side quantity leverage
  (r.1.toOption, r.2)

/-- `LimitOrder.place_limit_order` (limit_order.py lines 18-65) before the
`except` clauses turn errors into `None`.  validate_quantity_price makes a
second futures_exchange_info call; its min-price and missing-symbol-info
cases only log and reject nothing, and validate_time_in_force also only
logs, so neither rejects. -/
def limitPlaceOrder (env : Env) (symbol side : String) (quantity price : ℚ)
    (time_in_force : String) : Except VError ℕ × List Call :=
  let sym := strUpper symbol
  let sd := strUpper side
  let tif := strUpper time_in_force
  let t0 : List Call := [.futuresExchangeInfo]
  if sym ∉ env.symbols then (.error .symbolUnknown, t0)
  else if sd ∉ ["BUY", "SELL"] then (.error .badSide, t0)
  else if quantity ≤ 0 then (.error .badQuantity, t0)
  else if price ≤ 0 then (.error .badPrice, t0)
  else
    let t1 := t0 ++ [.futuresExchangeInfo]
    let t2 := t1 ++ [.futuresCreateOrder sym sd "LIMIT" quantity (some price) (some tif) none]
    if env.createOrderOk then (.ok env.orderId, t2)
    else (.error .createOrderFailed, t2)

/-- `LimitOrder.place_limit_order` as seen by the caller. -/
def place_limit_order (env : Env) (symbol side : String) (quantity price : ℚ)
    (time_in_force : String) : Option ℕ × List Call :=
  let r := limitPlaceOrder env symbol side quantity price time_in_force
  (r.1.toOption, r.2)

/-- The derived trigger prices and closing side of an OCO setup
(oco.py lines 61-88). -/
structure OCOSetup where
  tp : ℤ
  sl : ℤ
  order_side : String
  deriving DecidableEq, Repr

/-- The price-derivation and directional-validity part of
`OCOOrder.place_oco` (oco.py lines 61-84).  Note the trigger prices are
rounded to whole integers by Python's built-in `round`, and the stop-loss
check runs before the take-profit check. -/
def oco_derive (side : String) (current_price tp_percent sl_percent : ℚ) :
    Except VError OCOSetup :=
  if side = "BUY" then
    let tp := pyRound (current_price * (1 + tp_percent / 100))
    let sl := pyRound (current_price * (1 - sl_percent / 100))
    if current_price ≤ (sl : ℚ) then .error .slPlacementInvalid
    else if (tp : ℚ) ≤ current_price then .error .tpPlacementInvalid
    else .ok ⟨tp, sl, "SELL"⟩
  else
    let tp := pyRound (current_price * (1 - tp_percent / 100))
    let sl := pyRound (current_price * (1 + sl_percent / 100))
    if (sl : ℚ) ≤ current_price then .error .slPlacementInvalid
    else if current_price ≤ (tp : ℚ) then .error .tpPlacementInvalid
    else .ok ⟨tp, sl, "BUY"⟩

/-- The outcome of `OCOOrder.place_oco` as the caller sees it: the
directional-validity `raise` is OUTSIDE the `try`, so it propagates to the
caller; submission errors are caught and become `None`. -/
inductive OcoOutcome where
  | raised (e : VError)
  | returnedNone
  | orders (stop_loss take_profit : ℕ)
  deriving DecidableEq, Repr

/-- `OCOOrder.place_oco` (oco.py lines 41-115): side gate, price fetch
(futures_symbol_ticker via get_price), derivation, then the STOP_MARKET
stop-loss order is submitted first and the TAKE_PROFIT_MARKET take-profit
order second; any submission failure is caught and yields `None` with no
cancellation of the already-placed order. -/
def place_oco (env : Env) (symbol side : String)
    (quantity tp_percent sl_percent : ℚ) : OcoOutcome × List Call :=
  let sym := strUpper symbol
  let sd := strUpper side
  if sd ∉ ["BUY", "SELL"] then (.returnedNone, [])
  else
    let t0 : List Call := [.futuresSymbolTicker sym]
    match oco_derive sd env.price tp_percent sl_percent with
    | .error e => (.raised e, t0)
    | .ok u =>
      let t1 := t0 ++ [.futuresCreateOrder sym u.order_side "STOP_MARKET" quantity none none (some u.sl)]
      if env.stopMarketOk = false then (.returnedNone, t1)
      else
        let t2 := t1 ++ [.futuresCreateOrder sym u.order_side "TAKE_PROFIT_MARKET" quantity none none (some u.tp)]
        if env.takeProfitOk = false then (.returnedNone, t2)
        else (.orders env.orderId env.orderId, t2)

/-! Concrete environments used to instantiate the claims. -/

/-- A healthy exchange: one listed symbol, price 50000, ample USDT margin,
reachable, and every mutating call succeeding. -/
def envOk : Env :=
  { symbols := ["BTCUSDT"], price := 50000, balances := [("USDT", 10000)],
    pingOk := true, changeLeverageOk := true, createOrderOk := true,
    stopMarketOk := true, takeProfitOk := true, orderId := 1 }

/-- Like `envOk` but with only 5 USDT of margin balance. -/
def envLowBal : Env := { envOk with balances := [("USDT", 5)] }

/-- Like `envOk` but the TAKE_PROFIT_MARKET submission raises. -/
def envTPFail : Env := { envOk with takeProfitOk := false }

/-- Like `envOk` but the create-order call raises. -/
def envCreateFail : Env := { envOk with createOrderOk := false }

/-! Claims C1, C2: the OCO price derivation. -/

/-- Claim C1 (amended): for a BUY OCO request the derived take-profit lies
strictly above and the derived stop-loss strictly below the current price
(mirrored for SELL), and the directional-validity check passes, PROVIDED
the percentage offsets exceed half a price unit
(price*pct/100 > 1/2) — because the trigger prices are rounded to whole
integers, positivity of the percentages alone does not suffice. -/
theorem C1_oco_directional_check (p t s : ℚ)
    (hT : 1/2 < p * (t / 100)) (hS : 1/2 < p * (s / 100)) :
    (∃ u, oco_derive "BUY" p t s = .ok u ∧
        (u.sl : ℚ) < p ∧ p < (u.tp : ℚ) ∧ u.order_side = "SELL")
    ∧ (∃ v, oco_derive "SELL" p t s = .ok v ∧
        (v.tp : ℚ) < p ∧ p < (v.sl : ℚ) ∧ v.order_side = "BUY") := by
  have e1 : p * (1 + t / 100) = p + p * (t / 100) := by ring
  have e2 : p * (1 - s / 100) = p - p * (s / 100) := by ring
  have e3 : p * (1 - t / 100) = p - p * (t / 100) := by ring
  have e4 : p * (1 + s / 100) = p + p * (s / 100) := by ring
  have htp : p < (pyRound (p * (1 + t / 100)) : ℚ) := by
    have h := pyRound_ge (p * (1 + t / 100)); linarith
  have hsl : (pyRound (p * (1 - s / 100)) : ℚ) < p := by
    have h := pyRound_le (p * (1 - s / 100)); linarith
  have htp2 : (pyRound (p * (1 - t / 100)) : ℚ) < p := by
    have h := pyRound_le (p * (1 - t / 100)); linarith
  have hsl2 : p < (pyRound (p * (1 + s / 100)) : ℚ) := by
    have h := pyRound_ge (p * (1 + s / 100)); linarith
  constructor
  · refine ⟨⟨pyRound (p * (1 + t / 100)), pyRound (p * (1 - s / 100)), "SELL"⟩,
      ?_, hsl, htp, rfl⟩
    simp only [oco_derive]
    simp only [if_true, if_neg (not_le.mpr hsl), if_neg (not_le.mpr htp)]
  · refine ⟨⟨pyRound (p * (1 - t / 100)), pyRound (p * (1 + s / 100)), "BUY"⟩,
      ?_, htp2, hsl2, rfl⟩
    simp only [oco_derive]
    simp only [if_neg (by decide : ¬("SELL" : String) = "BUY"),
      if_neg (not_le.mpr hsl2), if_neg (not_le.mpr htp2)]

/-- Witness for C1's amended theorem at price 50000, tp% = sl% = 2. -/
theorem C1_oco_directional_check_witness :
    (∃ u, oco_derive "BUY" 50000 2 2 = .ok u ∧
        (u.sl : ℚ) < 50000 ∧ (50000 : ℚ) < (u.tp : ℚ) ∧ u.order_side = "SELL")
    ∧ (∃ v, oco_derive "SELL" 50000 2 2 = .ok v ∧
        (v.tp : ℚ) < 50000 ∧ (50000 : ℚ) < (v.sl : ℚ) ∧ v.order_side = "BUY") :=
  C1_oco_directional_check 50000 2 2 (by norm_num) (by norm_num)

/-- Counterexample to claim C1 as stated: at price 100 with the strictly
positive percentages tp% = sl% = 0.1, rounding puts the stop loss AT the
current price, the directional check fails, and place_oco raises the
stop-loss "placement invalid" error. -/
theorem C1_counterexample :
    (0 : ℚ) < 1/10
    ∧ oco_derive "BUY" 100 (1/10) (1/10) = .error .slPlacementInvalid := by
  constructor
  · norm_num
  · simp only [oco_derive]
    norm_num [pyRound]

/-- Claim C2: for side BUY, place_oco derives
take_profit = round(price*(1 + tp%/100)),
stop_loss = round(price*(1 - sl%/100)) and closing side SELL; mirrored
formulas with closing side BUY for side SELL; and for price 50000, BUY,
tp% = sl% = 2 it derives take_profit 51000, stop_loss 49000, side SELL. -/
theorem C2_oco_formulas :
    (∀ p t s u, oco_derive "BUY" p t s = .ok u →
        u.tp = pyRound (p * (1 + t / 100)) ∧ u.sl = pyRound (p * (1 - s / 100))
        ∧ u.order_side = "SELL")
    ∧ (∀ p t s u, oco_derive "SELL" p t s = .ok u →
        u.tp = pyRound (p * (1 - t / 100)) ∧ u.sl = pyRound (p * (1 + s / 100))
        ∧ u.order_side = "BUY")
    ∧ oco_derive "BUY" 50000 2 2 = .ok ⟨51000, 49000, "SELL"⟩ := by
  refine ⟨?_, ?_, ?_⟩
  · intro p t s u h
    simp only [oco_derive] at h
    split_ifs at h <;> simp_all
    subst h
    exact ⟨rfl, rfl, rfl⟩
  · intro p t s u h
    simp only [oco_derive] at h
    split_ifs at h <;> simp_all
    subst h
    exact ⟨rfl, rfl, rfl⟩
  · simp only [oco_derive]
    norm_num [pyRound]

/-! Claims C3, C9: the quantity bounds adjuster. -/

/-- Claim C3 (amended): validate_quantity_bounds returns
round(min_usd/price, 6) when the request is below that minimum; when the
request is NOT below the minimum and is above round(balance*leverage*0.8/price, 6)
it returns that maximum; otherwise it returns the request unchanged (the
minimum branch takes precedence over the maximum branch); with
quantity 0.0001, price 50000, min_usd 100 it returns 0.002. -/
theorem C3_quantity_bounds (q p bal lev mu : ℚ) :
    (q < round6 (mu / p) → validate_quantity_bounds q p bal lev mu = round6 (mu / p))
    ∧ (¬ q < round6 (mu / p) → round6 (bal * lev * (8/10) / p) < q →
        validate_quantity_bounds q p bal lev mu = round6 (bal * lev * (8/10) / p))
    ∧ (¬ q < round6 (mu / p) → ¬ round6 (bal * lev * (8/10) / p) < q →
        validate_quantity_bounds q p bal lev mu = q)
    ∧ validate_quantity_bounds (1/10000) 50000 10000 20 100 = 1/500 := by
  refine ⟨?_, ?_, ?_, ?_⟩
  · intro h; simp only [validate_quantity_bounds, if_pos h]
  · intro h1 h2; simp only [validate_quantity_bounds, if_neg h1, if_pos h2]
  · intro h1 h2; simp only [validate_quantity_bounds, if_neg h1, if_neg h2]
  · norm_num [validate_quantity_bounds, round6, pyRound]

/-- Counterexample to claim C3 as stated: with balance 0 the computed
maximum is 0 and the requested quantity 0.0001 is above it, yet the
adjuster returns the minimum 0.002, not the maximum. -/
theorem C3_counterexample :
    round6 ((0 : ℚ) * 20 * (8/10) / 50000) < (1/10000 : ℚ)
    ∧ validate_quantity_bounds (1/10000) 50000 0 20 100
        ≠ round6 ((0 : ℚ) * 20 * (8/10) / 50000) := by
  constructor
  · norm_num [round6, pyRound]
  · norm_num [validate_quantity_bounds, round6, pyRound]

/-- Claim C9: the minimum-bound branch of validate_quantity_bounds takes
precedence: whenever the request is below round(min_usd/price, 6) the
function returns that minimum, even in the concrete instance where the
minimum (0.002) exceeds the computed maximum (0, from balance 0), so the
returned quantity is not guaranteed to be at most the maximum. -/
theorem C9_min_precedence (q p bal lev mu : ℚ) (h : q < round6 (mu / p)) :
    validate_quantity_bounds q p bal lev mu = round6 (mu / p)
    ∧ (validate_quantity_bounds (1/10000) 50000 0 20 100 = 1/500
        ∧ round6 ((0 : ℚ) * 20 * (8/10) / 50000) < 1/500) := by
  refine ⟨?_, ?_, ?_⟩
  · simp only [validate_quantity_bounds, if_pos h]
  · norm_num [validate_quantity_bounds, round6, pyRound]
  · norm_num [round6, pyRound]

/-- Witness for C9 at the request 0.0001, price 50000, balance 0. -/
theorem C9_min_precedence_witness :
    validate_quantity_bounds (1/10000) 50000 0 20 100 = round6 ((100 : ℚ) / 50000) :=
  (C9_min_precedence (1/10000) 50000 0 20 100 (by norm_num [round6, pyRound])).1

/-! Claims C4-C8: the market- and limit-order pipelines. -/

theorem validate_leverage_fails (lev : ℚ)
    (h : lev.den ≠ 1 ∨ lev < 1 ∨ 125 < lev) :
    validate_leverage lev = .error .badLeverageType
    ∨ validate_leverage lev = .error .badLeverageRange := by
  unfold validate_leverage
  split_ifs with h1 h2
  · exact Or.inl rfl
  · exact Or.inr rfl
  · rcases h with h | h | h
    · exact absurd h h1
    · exact absurd (Or.inl h) h2
    · exact absurd (Or.inr h) h2

theorem validate_leverage_ok_val (lev x : ℚ)
    (hx : validate_leverage lev = .ok x) : x = lev := by
  unfold validate_leverage at hx
  split_ifs at hx
  cases hx
  rfl

/-! Branch-by-branch evaluation lemmas for the market-order pipeline,
used to settle the temporal claims without re-expanding the whole body. -/

theorem bool_true_not_false {b : Bool} (h : b = true) : ¬ b = false := by
  intro hf
  rw [h] at hf
  cases hf

theorem bool_false_not_true {b : Bool} (h : b = false) : ¬ b = true := by
  intro ht
  rw [h] at ht
  cases ht

theorem bool_eq_true_of_not_false {b : Bool} (h : ¬ b = false) : b = true := by
  cases hb : b
  · exact absurd hb h
  · rfl

theorem calls1_clean :
    ∀ c ∈ ([Call.futuresExchangeInfo] : List Call),
      c.isChangeLeverage = false ∧ c.isCreateOrder = false := by decide

theorem calls2_clean :
    ∀ c ∈ ([Call.futuresExchangeInfo, Call.futuresPing] : List Call),
      c.isChangeLeverage = false ∧ c.isCreateOrder = false := by decide

theorem calls3_clean :
    ∀ c ∈ ([Call.futuresExchangeInfo, Call.futuresPing,
        Call.futuresAccountBalance] : List Call),
      c.isChangeLeverage = false ∧ c.isCreateOrder = false := by decide

theorem mp_symbol_unknown (env : Env) (symbol side : String) (q lev : ℚ)
    (h : strUpper symbol ∉ env.symbols) :
    marketPlaceOrder env symbol side q lev
      = (.error .symbolUnknown, [.futuresExchangeInfo]) := by
  simp only [marketPlaceOrder, if_pos h]

theorem mp_bad_side (env : Env) (symbol side : String) (q lev : ℚ)
    (h1 : strUpper symbol ∈ env.symbols)
    (h2 : strUpper side ∉ ["BUY", "SELL"]) :
    marketPlaceOrder env symbol side q lev
      = (.error .badSide, [.futuresExchangeInfo]) := by
  simp only [marketPlaceOrder, if_neg (not_not_intro h1), if_pos h2]

theorem mp_empty_symbol (env : Env) (symbol side : String) (q lev : ℚ)
    (h1 : strUpper symbol ∈ env.symbols)
    (h2 : strUpper side ∈ ["BUY", "SELL"])
    (h3 : strUpper symbol = "") :
    marketPlaceOrder env symbol side q lev
      = (.error .badSymbolString, [.futuresExchangeInfo]) := by
  simp only [marketPlaceOrder, if_neg (not_not_intro h1),
    if_neg (not_not_intro h2), if_pos h3]

theorem mp_bad_quantity (env : Env) (symbol side : String) (q lev : ℚ)
    (h1 : strUpper symbol ∈ env.symbols)
    (h2 : strUpper side ∈ ["BUY", "SELL"])
    (h3 : ¬ strUpper symbol = "") (h4 : q ≤ 0) :
    marketPlaceOrder env symbol side q lev
      = (.error .badQuantity, [.futuresExchangeInfo]) := by
  simp only [marketPlaceOrder, if_neg (not_not_intro h1),
    if_neg (not_not_intro h2), if_neg h3, if_pos h4]

theorem mp_ping_fail (env : Env) (symbol side : String) (q lev : ℚ)
    (h1 : strUpper symbol ∈ env.symbols)
    (h2 : strUpper side ∈ ["BUY", "SELL"])
    (h3 : ¬ strUpper symbol = "") (h4 : ¬ q ≤ 0)
    (h5 : env.pingOk = false) :
    marketPlaceOrder env symbol side q lev
      = (.error .exchangeUnreachable, [.futuresExchangeInfo, .futuresPing]) := by
  simp only [marketPlaceOrder, if_neg (not_not_intro h1),
    if_neg (not_not_intro h2), if_neg h3, if_neg h4, if_pos h5]
  rfl

theorem mp_leverage_error (env : Env) (symbol side : String) (q lev : ℚ)
    (e : VError)
    (h1 : strUpper symbol ∈ env.symbols)
    (h2 : strUpper side ∈ ["BUY", "SELL"])
    (h3 : ¬ strUpper symbol = "") (h4 : ¬ q ≤ 0)
    (h5 : env.pingOk = true)
    (hvl : validate_leverage lev = .error e) :
    marketPlaceOrder env symbol side q lev
      = (.error e, [.futuresExchangeInfo, .futuresPing]) := by
  simp only [marketPlaceOrder, if_neg (not_not_intro h1),
    if_neg (not_not_intro h2), if_neg h3, if_neg h4,
    if_neg (bool_true_not_false h5), hvl]
  rfl

theorem mp_margin_error (env : Env) (symbol side : String) (q lev x : ℚ)
    (e : VError)
    (h1 : strUpper symbol ∈ env.symbols)
    (h2 : strUpper side ∈ ["BUY", "SELL"])
    (h3 : ¬ strUpper symbol = "") (h4 : ¬ q ≤ 0)
    (h5 : env.pingOk = true)
    (hvl : validate_leverage lev = .ok x)
    (hvm : validate_margin env.balances 10 = .error e) :
    marketPlaceOrder env symbol side q lev
      = (.error e,
         [.futuresExchangeInfo, .futuresPing, .futuresAccountBalance]) := by
  simp only [marketPlaceOrder, if_neg (not_not_intro h1),
    if_neg (not_not_intro h2), if_neg h3, if_neg h4,
    if_neg (bool_true_not_false h5), hvl, hvm]
  rfl

theorem mp_after_margin (env : Env) (symbol side : String) (q lev x bal : ℚ)
    (h1 : strUpper symbol ∈ env.symbols)
    (h2 : strUpper side ∈ ["BUY", "SELL"])
    (h3 : ¬ strUpper symbol = "") (h4 : ¬ q ≤ 0)
    (h5 : env.pingOk = true)
    (hvl : validate_leverage lev = .ok x)
    (hvm : validate_margin env.balances 10 = .ok bal) :
    marketPlaceOrder env symbol side q lev
      = (if env.changeLeverageOk = false
          then (.error .changeLeverageFailed,
                [.futuresExchangeInfo, .futuresPing, .futuresAccountBalance,
                 .futuresChangeLeverage (strUpper symbol) lev])
          else if validate_quantity_bounds q env.price bal lev 100 ≤ 0
          then (.error .invalidAdjustedQuantity,
                [.futuresExchangeInfo, .futuresPing, .futuresAccountBalance,
                 .futuresChangeLeverage (strUpper symbol) lev,
                 .futuresSymbolTicker (strUpper symbol), .futuresAccountBalance])
          else if env.createOrderOk
          then (.ok env.orderId,
                [.futuresExchangeInfo, .futuresPing, .futuresAccountBalance,
                 .futuresChangeLeverage (strUpper symbol) lev,
                 .futuresSymbolTicker (strUpper symbol), .futuresAccountBalance,
                 .futuresCreateOrder (strUpper symbol) (strUpper side) "Market"
                   (validate_quantity_bounds q env.price bal lev 100) none none none])
          else (.error .createOrderFailed,
                [.futuresExchangeInfo, .futuresPing, .futuresAccountBalance,
                 .futuresChangeLeverage (strUpper symbol) lev,
                 .futuresSymbolTicker (strUpper symbol), .futuresAccountBalance,
                 .futuresCreateOrder (strUpper symbol) (strUpper side) "Market"
                   (validate_quantity_bounds q env.price bal lev 100) none none none])) := by
  simp only [marketPlaceOrder, if_neg (not_not_intro h1),
    if_neg (not_not_intro h2), if_neg h3, if_neg h4,
    if_neg (bool_true_not_false h5), hvl, hvm]
  rfl

/-- Claim C5: an order attempt whose (uppercased) symbol is not in the
exchange's symbol list is rejected with the unknown-symbol error after the
single futures_exchange_info call, in both the market and the limit
pipeline — for EVERY quantity, price, leverage and time-in-force, even
invalid ones, so the numeric checks are never evaluated and the symbol
check precedes them. -/
theorem C5_symbol_check_first (env : Env) (symbol side : String)
    (q p lev : ℚ) (tif : String) (h : strUpper symbol ∉ env.symbols) :
    marketPlaceOrder env symbol side q lev
      = (.error .symbolUnknown, [.futuresExchangeInfo])
    ∧ limitPlaceOrder env symbol side q p tif
      = (.error .symbolUnknown, [.futuresExchangeInfo]) := by
  constructor
  · simp only [marketPlaceOrder, if_pos h]
  · simp only [limitPlaceOrder, if_pos h]

/-- Witness for C5: symbol FAKEUSDT, with a negative quantity and price
that would fail the numeric checks if those were ever evaluated. -/
theorem C5_symbol_check_first_witness :
    marketPlaceOrder envOk "FAKEUSDT" "BUY" (-5) 20
      = (.error .symbolUnknown, [.futuresExchangeInfo])
    ∧ limitPlaceOrder envOk "FAKEUSDT" "BUY" (-5) (-1) "GTC"
      = (.error .symbolUnknown, [.futuresExchangeInfo]) :=
  C5_symbol_check_first envOk "FAKEUSDT" "BUY" (-5) (-1) 20 "GTC" (by decide)

/-- Claim C4 (amended): an attempt with a non-integer or out-of-range
leverage always returns None, and neither the leverage-setting call nor
any order-creation call is made; when the earlier checks pass, the
rejection is precisely the leverage type/range error.  However the
symbol check (futures_exchange_info) and the liveness probe (futures_ping)
run BEFORE the leverage check, so exchange calls of those kinds are made
for the attempt. -/
theorem C4_leverage_gate (env : Env) (symbol side : String) (q lev : ℚ)
    (h : lev.den ≠ 1 ∨ lev < 1 ∨ 125 < lev) :
    (marketPlaceOrder env symbol side q lev).1.toOption = none
    ∧ (∀ c ∈ (marketPlaceOrder env symbol side q lev).2,
        c.isChangeLeverage = false ∧ c.isCreateOrder = false)
    ∧ (strUpper symbol ∈ env.symbols → strUpper side ∈ ["BUY", "SELL"] →
        ¬ strUpper symbol = "" → 0 < q → env.pingOk = true →
        (marketPlaceOrder env symbol side q lev).1 = .error .badLeverageType
        ∨ (marketPlaceOrder env symbol side q lev).1 = .error .badLeverageRange) := by
  obtain ⟨e, hvl, he⟩ : ∃ e, validate_leverage lev = .error e
      ∧ (e = VError.badLeverageType ∨ e = VError.badLeverageRange) := by
    rcases validate_leverage_fails lev h with h' | h'
    · exact ⟨_, h', Or.inl rfl⟩
    · exact ⟨_, h', Or.inr rfl⟩
  by_cases h1 : strUpper symbol ∈ env.symbols
  case neg =>
    rw [mp_symbol_unknown env symbol side q lev h1]
    exact ⟨rfl, calls1_clean, fun hx _ _ _ _ => absurd hx h1⟩
  by_cases h2 : strUpper side ∈ ["BUY", "SELL"]
  case neg =>
    rw [mp_bad_side env symbol side q lev h1 h2]
    exact ⟨rfl, calls1_clean, fun _ hx _ _ _ => absurd hx h2⟩
  by_cases h3 : strUpper symbol = ""
  case pos =>
    rw [mp_empty_symbol env symbol side q lev h1 h2 h3]
    exact ⟨rfl, calls1_clean, fun _ _ hx _ _ => absurd h3 hx⟩
  by_cases h4 : q ≤ 0
  case pos =>
    rw [mp_bad_quantity env symbol side q lev h1 h2 h3 h4]
    exact ⟨rfl, calls1_clean, fun _ _ _ hq _ => absurd h4 (not_le.mpr hq)⟩
  by_cases hping : env.pingOk = false
  case pos =>
    rw [mp_ping_fail env symbol side q lev h1 h2 h3 h4 hping]
    exact ⟨rfl, calls2_clean,
      fun _ _ _ _ hp => absurd hp (bool_false_not_true hping)⟩
  have hp5 : env.pingOk = true := bool_eq_true_of_not_false hping
  rw [mp_leverage_error env symbol side q lev e h1 h2 h3 h4 hp5 hvl]
  refine ⟨rfl, calls2_clean, fun _ _ _ _ _ => ?_⟩
  rcases he with rfl | rfl
  · exact Or.inl rfl
  · exact Or.inr rfl

/-- Witness for C4's amended theorem at leverage 150. -/
theorem C4_leverage_gate_witness :
    (marketPlaceOrder envOk "BTCUSDT" "BUY" (1/100) 150).1.toOption = none
    ∧ (∀ c ∈ (marketPlaceOrder envOk "BTCUSDT" "BUY" (1/100) 150).2,
        c.isChangeLeverage = false ∧ c.isCreateOrder = false) :=
  ⟨(C4_leverage_gate envOk "BTCUSDT" "BUY" (1/100) 150
      (Or.inr (Or.inr (by norm_num)))).1,
   (C4_leverage_gate envOk "BTCUSDT" "BUY" (1/100) 150
      (Or.inr (Or.inr (by norm_num)))).2.1⟩

/-- Counterexample to claim C4 as stated: at leverage 150 the attempt is
rejected with the leverage-range error, but the trace of exchange calls is
NOT empty: the symbol check and the liveness probe already made the
futures_exchange_info and futures_ping calls. -/
theorem C4_counterexample :
    marketPlaceOrder envOk "BTCUSDT" "BUY" (1/100) 150
      = (.error .badLeverageRange, [.futuresExchangeInfo, .futuresPing])
    ∧ ([Call.futuresExchangeInfo, Call.futuresPing] : List Call) ≠ [] := by
  constructor
  · simp only [marketPlaceOrder, envOk, validate_leverage, validate_margin]
    norm_num [show strUpper "BTCUSDT" = "BTCUSDT" from by decide,
      show strUpper "BUY" = "BUY" from by decide,
      show ("BTCUSDT" : String) ≠ "" from by decide]
  · decide

/-- Claim C6 is a code bug: validate_time_in_force only logs an invalid
time-in-force, it raises nothing, so a limit order with the invalid
time-in-force "XYZ" is NOT rejected: the pipeline submits the LIMIT order
to the exchange with timeInForce "XYZ" and returns it to the caller. -/
theorem C6_invalid_tif_not_rejected :
    strUpper "XYZ" ∉ valid_tif
    ∧ limitPlaceOrder envOk "BTCUSDT" "BUY" (1/100) 50000 "XYZ" =
        (.ok 1, [.futuresExchangeInfo, .futuresExchangeInfo,
          .futuresCreateOrder "BTCUSDT" "BUY" "LIMIT" (1/100)
            (some 50000) (some "XYZ") none]) := by
  constructor
  · decide
  · simp only [limitPlaceOrder, envOk]
    norm_num [show strUpper "BTCUSDT" = "BTCUSDT" from by decide,
      show strUpper "BUY" = "BUY" from by decide,
      show strUpper "XYZ" = "XYZ" from by decide]

/-- Claim C7: when the first USDT balance entry is below the 10-USDT
threshold, the market-order attempt returns None and no order-creation
call is made; when it meets the threshold, validate_margin passes and
returns the balance. -/
theorem C7_margin_gate (env : Env) (symbol side : String) (q lev bal : ℚ)
    (hb : List.lookup "USDT" env.balances = some bal) :
    (bal < 10 →
      (marketPlaceOrder env symbol side q lev).1.toOption = none
      ∧ ∀ c ∈ (marketPlaceOrder env symbol side q lev).2, c.isCreateOrder = false)
    ∧ (10 ≤ bal → validate_margin env.balances 10 = .ok bal) := by
  constructor
  · intro hlow
    have hvm : validate_margin env.balances 10 = .error .insufficientMargin := by
      simp only [validate_margin, hb, if_pos hlow]
    by_cases h1 : strUpper symbol ∈ env.symbols
    case neg =>
      rw [mp_symbol_unknown env symbol side q lev h1]
      exact ⟨rfl, fun c hc => (calls1_clean c hc).2⟩
    by_cases h2 : strUpper side ∈ ["BUY", "SELL"]
    case neg =>
      rw [mp_bad_side env symbol side q lev h1 h2]
      exact ⟨rfl, fun c hc => (calls1_clean c hc).2⟩
    by_cases h3 : strUpper symbol = ""
    case pos =>
      rw [mp_empty_symbol env symbol side q lev h1 h2 h3]
      exact ⟨rfl, fun c hc => (calls1_clean c hc).2⟩
    by_cases h4 : q ≤ 0
    case pos =>
      rw [mp_bad_quantity env symbol side q lev h1 h2 h3 h4]
      exact ⟨rfl, fun c hc => (calls1_clean c hc).2⟩
    by_cases hping : env.pingOk = false
    case pos =>
      rw [mp_ping_fail env symbol side q lev h1 h2 h3 h4 hping]
      exact ⟨rfl, fun c hc => (calls2_clean c hc).2⟩
    have hp5 : env.pingOk = true := bool_eq_true_of_not_false hping
    rcases hvl : validate_leverage lev with e | x
    · rw [mp_leverage_error env symbol side q lev e h1 h2 h3 h4 hp5 hvl]
      exact ⟨rfl, fun c hc => (calls2_clean c hc).2⟩
    rw [mp_margin_error env symbol side q lev x _ h1 h2 h3 h4 hp5 hvl hvm]
    exact ⟨rfl, fun c hc => (calls3_clean c hc).2⟩
  · intro hok
    simp only [validate_margin, hb, if_neg (not_lt.mpr hok)]

/-- Witness for C7: balance 5 blocks the order; balance 10000 passes. -/
theorem C7_margin_gate_witness :
    ((marketPlaceOrder envLowBal "BTCUSDT" "BUY" (1/100) 20).1.toOption = none
      ∧ ∀ c ∈ (marketPlaceOrder envLowBal "BTCUSDT" "BUY" (1/100) 20).2,
          c.isCreateOrder = false)
    ∧ validate_margin envOk.balances 10 = .ok 10000 :=
  ⟨(C7_margin_gate envLowBal "BTCUSDT" "BUY" (1/100) 20 5 rfl).1 (by norm_num),
   (C7_margin_gate envOk "BTCUSDT" "BUY" (1/100) 20 10000 rfl).2 (by norm_num)⟩

theorem sublist_pair_of_seven (a b x1 x2 x3 x4 x5 : Call) :
    List.Sublist [a, b] [x1, x2, x3, a, x4, x5, b] :=
  List.Sublist.cons x1 (List.Sublist.cons x2 (List.Sublist.cons x3
    (List.Sublist.cons₂ a (List.Sublist.cons x4 (List.Sublist.cons x5
      (List.Sublist.cons₂ b List.Sublist.slnil))))))

/-- The C8 conjuncts hold for every branch that errors out with a trace
containing neither the change-leverage nor the create-order call. -/
theorem c8_shape_early (env : Env) (symbol side : String) (q lev : ℚ)
    (e : VError) (t : List Call)
    (heq : marketPlaceOrder env symbol side q lev = (.error e, t))
    (hno : ∀ c ∈ t, c.isChangeLeverage = false ∧ c.isCreateOrder = false) :
    List.countP (fun c => c.isChangeLeverage)
        (marketPlaceOrder env symbol side q lev).2 ≤ 1
    ∧ (∀ c ∈ (marketPlaceOrder env symbol side q lev).2,
        c.isChangeLeverage = true →
        strUpper symbol ∈ env.symbols ∧ strUpper side ∈ ["BUY", "SELL"]
        ∧ 0 < q ∧ env.pingOk = true ∧ validate_leverage lev = .ok lev
        ∧ ∃ b, validate_margin env.balances 10 = .ok b)
    ∧ (∀ c ∈ (marketPlaceOrder env symbol side q lev).2,
        c.isCreateOrder = true →
        List.Sublist [Call.futuresChangeLeverage (strUpper symbol) lev, c]
          (marketPlaceOrder env symbol side q lev).2)
    ∧ (env.createOrderOk = false →
        (marketPlaceOrder env symbol side q lev).1.toOption = none) := by
  rw [heq]
  refine ⟨?_, ?_, ?_, fun _ => rfl⟩
  · have h0 : List.countP (fun c => c.isChangeLeverage) t = 0 := by
      rw [List.countP_eq_zero]
      intro c hc
      simp [(hno c hc).1]
    simp [h0]
  · intro c hc hcl
    rw [(hno c hc).1] at hcl
    cases hcl
  · intro c hc hco
    rw [(hno c hc).2] at hco
    cases hco

/-- Claim C8: the futures_change_leverage call is made at most once, only
after every guard check has passed, and before the order-creation call
(whenever a create-order call is in the trace, the change-leverage call
precedes it as a sublist); and when order creation fails, place_order
returns None — with at most one change-leverage call in the trace, there
is no compensating call reverting the leverage change. -/
theorem C8_leverage_before_submission (env : Env) (symbol side : String)
    (q lev : ℚ) :
    List.countP (fun c => c.isChangeLeverage)
        (marketPlaceOrder env symbol side q lev).2 ≤ 1
    ∧ (∀ c ∈ (marketPlaceOrder env symbol side q lev).2,
        c.isChangeLeverage = true →
        strUpper symbol ∈ env.symbols ∧ strUpper side ∈ ["BUY", "SELL"]
        ∧ 0 < q ∧ env.pingOk = true ∧ validate_leverage lev = .ok lev
        ∧ ∃ b, validate_margin env.balances 10 = .ok b)
    ∧ (∀ c ∈ (marketPlaceOrder env symbol side q lev).2,
        c.isCreateOrder = true →
        List.Sublist [Call.futuresChangeLeverage (strUpper symbol) lev, c]
          (marketPlaceOrder env symbol side q lev).2)
    ∧ (env.createOrderOk = false →
        (marketPlaceOrder env symbol side q lev).1.toOption = none) := by
  by_cases h1 : strUpper symbol ∈ env.symbols
  case neg =>
    exact c8_shape_early env symbol side q lev _ _
      (mp_symbol_unknown env symbol side q lev h1) calls1_clean
  by_cases h2 : strUpper side ∈ ["BUY", "SELL"]
  case neg =>
    exact c8_shape_early env symbol side q lev _ _
      (mp_bad_side env symbol side q lev h1 h2) calls1_clean
  by_cases h3 : strUpper symbol = ""
  case pos =>
    exact c8_shape_early env symbol side q lev _ _
      (mp_empty_symbol env symbol side q lev h1 h2 h3) calls1_clean
  by_cases h4 : q ≤ 0
  case pos =>
    exact c8_shape_early env symbol side q lev _ _
      (mp_bad_quantity env symbol side q lev h1 h2 h3 h4) calls1_clean
  by_cases hping : env.pingOk = false
  case pos =>
    exact c8_shape_early env symbol side q lev _ _
      (mp_ping_fail env symbol side q lev h1 h2 h3 h4 hping) calls2_clean
  have hp5 : env.pingOk = true := bool_eq_true_of_not_false hping
  have hlcase : (∃ e, validate_leverage lev = .error e)
      ∨ validate_leverage lev = .ok lev := by
    rcases hv : validate_leverage lev with e | x
    · exact Or.inl ⟨e, rfl⟩
    · exact Or.inr (by rw [validate_leverage_ok_val lev x hv])
  rcases hlcase with ⟨e, hvl⟩ | hvl
  · exact c8_shape_early env symbol side q lev _ _
      (mp_leverage_error env symbol side q lev e h1 h2 h3 h4 hp5 hvl)
      calls2_clean
  have hmcase : (∃ e, validate_margin env.balances 10 = .error e)
      ∨ ∃ b, validate_margin env.balances 10 = .ok b := by
    rcases hv : validate_margin env.balances 10 with e | b
    · exact Or.inl ⟨e, rfl⟩
    · exact Or.inr ⟨b, rfl⟩
  rcases hmcase with ⟨e', hvm⟩ | ⟨bal, hvm⟩
  · exact c8_shape_early env symbol side q lev _ _
      (mp_margin_error env symbol side q lev lev e' h1 h2 h3 h4 hp5 hvl hvm)
      calls3_clean
  have hguards : strUpper symbol ∈ env.symbols ∧ strUpper side ∈ ["BUY", "SELL"]
      ∧ 0 < q ∧ env.pingOk = true ∧ validate_leverage lev = .ok lev
      ∧ ∃ b, validate_margin env.balances 10 = .ok b :=
    ⟨h1, h2, not_le.mp h4, hp5, hvl, ⟨bal, hvm⟩⟩
  rw [mp_after_margin env symbol side q lev lev bal h1 h2 h3 h4 hp5 hvl hvm]
  by_cases hclv : env.changeLeverageOk = false
  case pos =>
    rw [if_pos hclv]
    refine ⟨?_, fun _ _ _ => hguards, ?_, fun _ => rfl⟩
    · simp [List.countP_cons, Call.isChangeLeverage]
    · intro c hc hco
      simp only [List.mem_cons, List.not_mem_nil, or_false] at hc
      rcases hc with rfl | rfl | rfl | rfl
      · cases hco
      · cases hco
      · cases hco
      · cases hco
  rw [if_neg hclv]
  by_cases hq2 : validate_quantity_bounds q env.price bal lev 100 ≤ 0
  case pos =>
    rw [if_pos hq2]
    refine ⟨?_, fun _ _ _ => hguards, ?_, fun _ => rfl⟩
    · simp [List.countP_cons, Call.isChangeLeverage]
    · intro c hc hco
      simp only [List.mem_cons, List.not_mem_nil, or_false] at hc
      rcases hc with rfl | rfl | rfl | rfl | rfl | rfl
      · cases hco
      · cases hco
      · cases hco
      · cases hco
      · cases hco
      · cases hco
  rw [if_neg hq2]
  by_cases hcr : env.createOrderOk = true
  case neg =>
    rw [if_neg hcr]
    refine ⟨?_, fun _ _ _ => hguards, ?_, fun _ => rfl⟩
    · simp [List.countP_cons, Call.isChangeLeverage]
    · intro c hc hco
      simp only [List.mem_cons, List.not_mem_nil, or_false] at hc
      rcases hc with rfl | rfl | rfl | rfl | rfl | rfl | rfl
      · cases hco
      · cases hco
      · cases hco
      · cases hco
      · cases hco
      · cases hco
      · exact sublist_pair_of_seven _ _ _ _ _ _ _
  case pos =>
    rw [if_pos hcr]
    refine ⟨?_, fun _ _ _ => hguards, ?_, ?_⟩
    · simp [List.countP_cons, Call.isChangeLeverage]
    · intro c hc hco
      simp only [List.mem_cons, List.not_mem_nil, or_false] at hc
      rcases hc with rfl | rfl | rfl | rfl | rfl | rfl | rfl
      · cases hco
      · cases hco
      · cases hco
      · cases hco
      · cases hco
      · cases hco
      · exact sublist_pair_of_seven _ _ _ _ _ _ _
    · intro hx
      exact absurd hx (bool_true_not_false hcr)

/-- Witness for C8 with a failing create-order call: the trace holds
exactly one change-leverage call and the result is None. -/
theorem C8_leverage_before_submission_witness :
    List.countP (fun c => c.isChangeLeverage)
        (marketPlaceOrder envCreateFail "BTCUSDT" "BUY" (1/100) 20).2 ≤ 1
    ∧ (marketPlaceOrder envCreateFail "BTCUSDT" "BUY" (1/100) 20).1.toOption = none :=
  ⟨(C8_leverage_before_submission envCreateFail "BTCUSDT" "BUY" (1/100) 20).1,
   (C8_leverage_before_submission envCreateFail "BTCUSDT" "BUY" (1/100) 20).2.2.2 rfl⟩

/-! Claim C10: the OCO submission order. -/

/-- Claim C10: place_oco always submits the STOP_MARKET stop-loss order
before the TAKE_PROFIT_MARKET take-profit order (its call trace is either
ticker-then-stop or ticker-stop-take, never take-profit first); when the
stop-loss submission succeeds and the take-profit submission raises,
place_oco returns None, and in every case no cancel call appears in the
trace, so the already-placed stop-loss order is neither cancelled nor
reported to the caller. -/
theorem C10_oco_sl_before_tp (env : Env) (symbol side : String)
    (q tps sls : ℚ) (u : OCOSetup)
    (hm : strUpper side ∈ (["BUY", "SELL"] : List String))
    (hd : oco_derive (strUpper side) env.price tps sls = .ok u) :
    ((place_oco env symbol side q tps sls).2 =
        [Call.futuresSymbolTicker (strUpper symbol),
         Call.futuresCreateOrder (strUpper symbol) u.order_side "STOP_MARKET"
           q none none (some u.sl)]
     ∨ (place_oco env symbol side q tps sls).2 =
        [Call.futuresSymbolTicker (strUpper symbol),
         Call.futuresCreateOrder (strUpper symbol) u.order_side "STOP_MARKET"
           q none none (some u.sl),
         Call.futuresCreateOrder (strUpper symbol) u.order_side "TAKE_PROFIT_MARKET"
           q none none (some u.tp)])
    ∧ (env.stopMarketOk = true → env.takeProfitOk = false →
        place_oco env symbol side q tps sls =
          (.returnedNone,
           [Call.futuresSymbolTicker (strUpper symbol),
            Call.futuresCreateOrder (strUpper symbol) u.order_side "STOP_MARKET"
              q none none (some u.sl),
            Call.futuresCreateOrder (strUpper symbol) u.order_side "TAKE_PROFIT_MARKET"
              q none none (some u.tp)]))
    ∧ (∀ c ∈ (place_oco env symbol side q tps sls).2, c.isCancelOrder = false) := by
  have hnot : ¬ strUpper side ∉ ["BUY", "SELL"] := not_not_intro hm
  refine ⟨?_, ?_, ?_⟩ <;> simp only [place_oco, if_neg hnot, hd]
  · cases hst : env.stopMarketOk <;> cases htp2 : env.takeProfitOk <;> simp
  · intro hst htp
    simp [hst, htp]
  · cases hst : env.stopMarketOk <;> cases htp : env.takeProfitOk <;>
      simp [Call.isCancelOrder]

/-- Witness for C10: BUY at price 50000 with tp% = sl% = 2, stop-loss
submission succeeding, take-profit submission raising. -/
theorem C10_oco_sl_before_tp_witness :
    place_oco envTPFail "BTCUSDT" "BUY" 1 2 2 =
      (.returnedNone,
       [Call.futuresSymbolTicker (strUpper "BTCUSDT"),
        Call.futuresCreateOrder (strUpper "BTCUSDT") "SELL" "STOP_MARKET"
          1 none none (some 49000),
        Call.futuresCreateOrder (strUpper "BTCUSDT") "SELL" "TAKE_PROFIT_MARKET"
          1 none none (some 51000)]) :=
  (C10_oco_sl_before_tp envTPFail "BTCUSDT" "BUY" 1 2 2
      ⟨51000, 49000, "SELL"⟩ (by decide)
      (by simp only [oco_derive, envTPFail, envOk,
            show strUpper "BUY" = "BUY" from by decide]
          norm_num [pyRound])).2.1 rfl rfl

end BinanceBot
